import Mathlib

/-!
Shallow embedding of the core of the hadoopt odoo-mcp repository, used to
check the natural-language specification against the code.

The embedding covers:
* `OdooClient._execute` (TTL cache), `OdooClient.search_read` (fallback),
  `OdooClient.clear_cache` — file `odoo_client.py`;
* `InstanceManager._connect_instance`, `validate_connection`, `get_client`,
  `switch_instance`, `instance_context` — file `core/instance_manager.py`;
* `BatchProcessor.batch_search_read`, `parallel_process`, `batch_create`,
  `batch_update`, `batch_delete` — file `batch_processor.py`.

Modelling conventions:
* Python dicts are association lists with decidable-equality keys; dict
  assignment is an upsert (`alset`), lookup is `alget`.
* A Python call that may raise is a function into `Option`: `none` models a
  raised exception, `some v` a normal return of `v`.
* Remote XML-RPC calls are parameters of the Lean functions: the caller of a
  definition supplies the outcome of each remote call (an `Option`-valued
  function or a stream of outcomes), and the definitions additionally return
  a count or flag of remote calls performed, so that statements such as
  "no remote call is made" can be expressed.
* Timestamps (`time.time()`) are `Int` values passed explicitly as `now`.
* Cache keys `f"{model}:{method}:{args}:{kwargs}"` are modelled structurally
  as a record of the four components; this is faithful as long as model and
  method names contain no colon, which holds for Odoo model names.
-/

set_option maxRecDepth 10000

/-- Association-list lookup keyed by decidable equality; models Python
dict membership test and subscript read. -/
def alget {κ : Type} {α : Type} [DecidableEq κ] : List (κ × α) → κ → Option α
  | [], _ => none
  | p :: rest, k => if p.1 = k then some p.2 else alget rest k

/-- Association-list upsert; models Python dict assignment
`d[k] = v` (replace in place if present, append otherwise). -/
def alset {κ : Type} {α : Type} [DecidableEq κ] : List (κ × α) → κ → α → List (κ × α)
  | [], k, v => [(k, v)]
  | p :: rest, k, v => if p.1 = k then (k, v) :: rest else p :: alset rest k v

namespace OdooClient

/-- Structural model of the cache key
`f"{model}:{method}:{str(args)}:{str(kwargs)}"` of `OdooClient._execute`. -/
structure CKey where
  model : String
  method : String
  argsRepr : String
  kwargsRepr : String
deriving DecidableEq

/-- The mutable cache state of one `OdooClient`: `self._cache` and
`self._cache_timestamps`. -/
structure CState (α : Type) where
  cache : List (CKey × α)
  stamps : List (CKey × Int)
deriving DecidableEq

/-- The fixed read-only method set of `OdooClient._execute`:
`method in ["search", "read", "search_read", "fields_get"]`. -/
def cacheable (method : String) : Bool :=
  method = "search" || method = "read" || method = "search_read" || method = "fields_get"

/-- Model of `OdooClient._execute`. `enabled` is `self.cache_enabled`,
`ttl` is `self.cache_ttl`, `now` the value of `time.time()`, `remote` the
outcome of `self._models.execute_kw` (`none` models a raised exception).
Returns `none` when the Python call raises, otherwise the result, the new
cache state and a flag telling whether the remote call was issued. -/
def execute {α : Type} (enabled : Bool) (ttl : Int) (now : Int) (key : CKey)
    (remote : Option α) (st : CState α) : Option (α × CState α × Bool) :=
  let run : Option (α × CState α × Bool) :=
    match remote with
    | none => none
    | some r =>
      if enabled && cacheable key.method then
        some (r, ⟨alset st.cache key r, alset st.stamps key now⟩, true)
      else
        some (r, st, true)
  if enabled && cacheable key.method then
    match alget st.cache key with
    | some v =>
      match alget st.stamps key with
      | none => none
      | some ts => if now - ts < ttl then some (v, st, false) else run
    | none => run
  else run

/-- Model of `OdooClient.clear_cache`. `mdl` and `meth` are the optional
`model` and `method` arguments (`none` models Python `None`). The branch
structure mirrors `if model and method: ... elif model: ... else: ...`. -/
def clear_cache {α : Type} (enabled : Bool) (st : CState α)
    (mdl meth : Option String) : CState α :=
  if !enabled then st
  else
    match mdl, meth with
    | some m, some me =>
      let rem := (st.cache.map Prod.fst).filter fun k => k.model = m && k.method = me
      ⟨st.cache.filter (fun p => !(rem.contains p.1)),
       st.stamps.filter (fun p => !(rem.contains p.1))⟩
    | some m, none =>
      let rem := (st.cache.map Prod.fst).filter fun k => k.model = m
      ⟨st.cache.filter (fun p => !(rem.contains p.1)),
       st.stamps.filter (fun p => !(rem.contains p.1))⟩
    | none, _ => ⟨[], []⟩

/-- One element of a search domain as `OdooClient.search_read` inspects it:
a string (a logical operator such as `"&"`), a list (a well-formed
condition), or anything else (for example the tuple form of a condition),
which the validation rejects. -/
inductive DomainItem where
  | str (s : String)
  | lst (l : List String)
  | other
deriving DecidableEq

/-- The client-side domain validation of `OdooClient.search_read`:
`len(domain) > 0 and not all(isinstance(item, list) for item in domain if
not isinstance(item, str))` raises `ValueError`, i.e. the domain is
accepted iff it is empty or every non-string item is a list. -/
def domain_valid (domain : List DomainItem) : Bool :=
  domain.isEmpty || domain.all fun item =>
    match item with
    | .str _ => true
    | .lst _ => true
    | .other => false

/-- Model of `OdooClient.search_read`. `domain` is the domain argument
(`none` models Python `None`, normalized to the empty domain); a domain
failing validation raises `ValueError` inside the outer `try`, which the
outer handler turns into an empty result with no remote call issued. The
other parameters give the outcomes of the up-to-three remote calls:
`direct` for the combined `search_read` call, `searchRes` for the fallback
`search`, `readRes` for the fallback `read` (`none` models a raised
exception). Returns the record list and two flags telling whether the
combined remote call and the fallback `search` call were issued. -/
def search_read {ρ : Type} (domain : Option (List DomainItem)) (direct : Option (List ρ))
    (searchRes : Option (List Nat)) (readRes : Option (List ρ)) : List ρ × Bool × Bool :=
  if !domain_valid (domain.getD []) then ([], false, false)
  else
    match direct with
    | some rs => (rs, true, false)
    | none =>
      match searchRes with
      | none => ([], true, true)
      | some [] => ([], true, true)
      | some (_ :: _) =>
        match readRes with
        | none => ([], true, true)
        | some recs => (recs, true, true)

end OdooClient

namespace InstanceManager

/-- The mutable state of an `InstanceManager` relevant to the claims:
`self._instance_names`, `self.connections`, `self.connection_timestamps`
and `self.active_instance`. Clients are abstract values of type `C`. -/
structure RState (C : Type) where
  names : List String
  connections : List (String × C)
  stamps : List (String × Int)
  active : String
deriving DecidableEq

/-- Model of `InstanceManager._connect_instance`. `res` is the outcome of
constructing the `OdooClient` for the instance (`none` models any exception
during configuration load or authentication, in which case the method logs
and returns `False` without touching the state). On success the new client
is stored and the connection timestamp set to `now`. -/
def connect_instance {C : Type} (st : RState C) (name : String) (now : Int)
    (res : Option C) : Bool × RState C :=
  match res with
  | none => (false, st)
  | some c =>
    (true, { st with connections := alset st.connections name c,
                     stamps := alset st.stamps name now })

/-- Model of `InstanceManager.validate_connection`. `probe` gives the
outcome of the liveness call `client.execute_method('res.users', 'read', ...)`
on a stored client (`true` iff it does not raise). `validity` is
`self.connection_validity`. -/
def validate_connection {C : Type} (st : RState C) (name : String)
    (now validity : Int) (probe : C → Bool) : Bool :=
  match alget st.connections name with
  | none => false
  | some c =>
    match alget st.stamps name with
    | some ts => if validity < now - ts then false else probe c
    | none => probe c

/-- The second half of `InstanceManager.get_client` (validate, then at most
one reconnect, then return `self.connections.get(instance_name)`). `rs` is
the stream of outcomes of the remaining `_connect_instance` attempts and
`n` counts the `_connect_instance` calls already made. -/
def get_client_validated {C : Type} (now validity : Int) (probe : C → Bool)
    (st : RState C) (name : String) (rs : List (Option C)) (n : Nat) :
    Option C × RState C × List (Option C) × Nat :=
  if validate_connection st name now validity probe then
    (alget st.connections name, st, rs, n)
  else
    let (ok, st1) := connect_instance st name now (rs.headD none)
    if ok then (alget st1.connections name, st1, rs.tail, n + 1)
    else (none, st1, rs.tail, n + 1)

/-- Model of `InstanceManager.get_client`. `name` is the optional instance
name argument (defaults to the active instance), `rs` the stream of
outcomes of successive `_connect_instance` attempts. Returns the client (or
`none` on failure), the new state, the unconsumed outcome stream, and the
number of `_connect_instance` attempts made. -/
def get_client {C : Type} (now validity : Int) (probe : C → Bool)
    (st : RState C) (name : Option String) (rs : List (Option C)) :
    Option C × RState C × List (Option C) × Nat :=
  let nm := name.getD st.active
  match alget st.connections nm with
  | none =>
    let (ok, st1) := connect_instance st nm now (rs.headD none)
    if ok then get_client_validated now validity probe st1 nm rs.tail 1
    else (none, st1, rs.tail, 1)
  | some _ => get_client_validated now validity probe st nm rs 0

/-- Model of `InstanceManager.switch_instance`: check membership in the
available instance names, ensure a client via `get_client`, then set the
active pointer. -/
def switch_instance {C : Type} (now validity : Int) (probe : C → Bool)
    (st : RState C) (name : String) (rs : List (Option C)) :
    Bool × RState C × List (Option C) :=
  if st.names.contains name then
    let out := get_client now validity probe st (some name) rs
    match out.1 with
    | none => (false, out.2.1, out.2.2.1)
    | some _ => (true, { out.2.1 with active := name }, out.2.2.1)
  else (false, st, rs)

/-- The body of the `try` block of `InstanceManager.instance_context`:
switch to the requested instance, get its client, run the caller's
operation (`body`, where `none` models an exception raised by it).
Returns the result (`none` when the block raises), the state reached, and,
when the body actually ran, the value of the active pointer at that moment
(a model observation used to state the claims). -/
def instance_context_try {C β : Type} (now validity : Int) (probe : C → Bool)
    (st : RState C) (name : String) (rs : List (Option C)) (body : C → Option β) :
    Option β × RState C × Option String :=
  let (ok, st1, rs1) := switch_instance now validity probe st name rs
  if ok then
    let out := get_client now validity probe st1 (some name) rs1
    match out.1 with
    | none => (none, out.2.1, none)
    | some c => (body c, out.2.1, some out.2.1.active)
  else (none, st1, none)

/-- Model of `InstanceManager.instance_context`: run the `try` block and
then, in the `finally` block, restore the previously active instance on
every exit path. -/
def instance_context {C β : Type} (now validity : Int) (probe : C → Bool)
    (st : RState C) (name : String) (rs : List (Option C)) (body : C → Option β) :
    Option β × RState C × Option String :=
  let previous := st.active
  let (res, stMid, during) := instance_context_try now validity probe st name rs body
  (res, { stMid with active := previous }, during)

end InstanceManager

namespace BatchProcessor

/-- The offsets visited by `for offset in range(0, total_records, batch_size)`
in `BatchProcessor.batch_search_read` (for `B > 0` Python's range has
`ceil(N / B)` elements). -/
def bsr_chunks (N B : Nat) : List Nat :=
  List.range' 0 ((N + B - 1) / B) B

/-- The loop body of `BatchProcessor.batch_search_read`. `fetch o l` is the
outcome of `self.odoo.search_read(model, domain, offset=o, limit=l)` (that
call cannot raise out of the loop: `OdooClient.search_read` converts its
own errors into an empty list, see `OdooClient.search_read`). Accumulates
the records, the processed count and the number of chunk fetches; an empty
chunk breaks the loop, and with `maxR = some m` the loop also breaks once
`m` records were processed. -/
def bsr_go {ρ : Type} (fetch : Nat → Nat → List ρ) (N B : Nat) (maxR : Option Nat) :
    List Nat → List ρ → Nat → Nat → List ρ × Nat
  | [], acc, _, f => (acc, f)
  | o :: rest, acc, p, f =>
    let cbs := min B (N - o)
    let batch := fetch o cbs
    if batch.isEmpty then (acc, f + 1)
    else
      let acc2 := acc ++ batch
      let p2 := p + batch.length
      if (match maxR with | some m => decide (m ≤ p2) | none => false) then (acc2, f + 1)
      else bsr_go fetch N B maxR rest acc2 p2 (f + 1)

/-- Model of `BatchProcessor.batch_search_read` in the case where the
initial `search_count` call succeeds and returns `N0` and no per-chunk
sink is supplied. Returns the combined record list and the number of chunk
fetches issued. -/
def batch_search_read {ρ : Type} (fetch : Nat → Nat → List ρ) (N0 : Nat)
    (maxR : Option Nat) (B : Nat) : List ρ × Nat :=
  let N := match maxR with | some m => min N0 m | none => N0
  bsr_go fetch N B maxR (bsr_chunks N B) [] 0 0

/-- Model of `BatchProcessor.parallel_process`. `f item = none` models
`process_func(item)` raising. Lists of three or fewer items are processed
inline by a plain list comprehension, so a raise propagates and the whole
call raises (result `none`); larger lists go through the thread pool where
each future's exception is caught individually and recorded as `None`.
Futures are submitted and collected in input order, so the parallel path is
the in-order map of `f`. -/
def parallel_process {α β : Type} (f : α → Option β) (items : List α) :
    Option (List (Option β)) :=
  if items.length ≤ 3 then
    (items.mapM f).map fun rs => rs.map some
  else
    some (items.map f)

/-- Fuel-based chunking of a list into consecutive slices of size `B`
(`records[i:i+batch_size]` for `i in range(0, total, batch_size)`); the
fuel is the list length, which suffices whenever `B ≥ 1`. -/
def chunk_list {α : Type} (B : Nat) : Nat → List α → List (List α)
  | 0, _ => []
  | _, [] => []
  | fuel + 1, l => l.take B :: chunk_list B fuel (l.drop B)

/-- Chunking that also records each chunk's starting index `i` (the
`batch_start` reported in error entries of the bulk mutations). -/
def chunk_idx {α : Type} (B : Nat) : Nat → Nat → List α → List (Nat × List α)
  | 0, _, _ => []
  | _, _, [] => []
  | fuel + 1, i, l => (i, l.take B) :: chunk_idx B fuel (i + B) (l.drop B)

/-- Result record shared by `batch_update` and `batch_delete` (`count` is
`updated_count` resp. `deleted_count`; the error entries keep the
`batch_start` and `batch_size` fields of the source dictionaries; `calls`
is a model observation counting the remote `write`/`unlink` calls). -/
structure MutResult where
  success : Bool
  model : String
  count : Nat
  total : Nat
  errors : List (Nat × Nat)
  elapsed : Nat
  calls : Nat
deriving DecidableEq

/-- The chunk loop shared by `batch_update` and `batch_delete`: one remote
call per chunk (`remote ids` is the outcome of `write`/`unlink` on the
chunk; `none` models a raised exception, `some false` a falsy return).
Accumulates the success flag, the processed count, the error entries and
the remote-call count; with `continue_on_error = false` the first error
breaks the loop. -/
def mut_go (remote : List Nat → Option Bool) (cont : Bool) :
    List (Nat × List Nat) → Bool → Nat → List (Nat × Nat) → Nat →
    Bool × Nat × List (Nat × Nat) × Nat
  | [], s, d, errs, calls => (s, d, errs, calls)
  | (i, ids) :: rest, s, d, errs, calls =>
    match remote ids with
    | some true => mut_go remote cont rest s (d + ids.length) errs (calls + 1)
    | some false =>
      if cont then mut_go remote cont rest false d (errs ++ [(i, ids.length)]) (calls + 1)
      else (false, d, errs ++ [(i, ids.length)], calls + 1)
    | none =>
      if cont then mut_go remote cont rest false d (errs ++ [(i, ids.length)]) (calls + 1)
      else (false, d, errs ++ [(i, ids.length)], calls + 1)

/-- Model of `BatchProcessor.batch_delete`. `unlink ids` is the outcome of
`self.odoo.execute_method(model, "unlink", [ids])`; `elapsed` is the
measured elapsed time of the non-trivial path. An empty id list returns
immediately with `success = true`, zero count, zero elapsed time and no
remote call. The returned error list is capped at 10 entries. -/
def batch_delete (unlink : List Nat → Option Bool) (mdl : String)
    (record_ids : List Nat) (B : Nat) (cont : Bool) (elapsed : Nat) : MutResult :=
  let total := record_ids.length
  if total = 0 then ⟨true, mdl, 0, 0, [], 0, 0⟩
  else
    let (s, d, errs, calls) :=
      mut_go unlink cont (chunk_idx B total 0 record_ids) true 0 [] 0
    ⟨s, mdl, d, total, if errs.length > 10 then errs.take 10 else errs, elapsed, calls⟩

/-- Model of `BatchProcessor.batch_update`; identical chunk loop to
`batch_delete`, with the remote call being `write` on each chunk (the
`values` argument is folded into the `write` parameter). -/
def batch_update (write : List Nat → Option Bool) (mdl : String)
    (record_ids : List Nat) (B : Nat) (cont : Bool) (elapsed : Nat) : MutResult :=
  let total := record_ids.length
  if total = 0 then ⟨true, mdl, 0, 0, [], 0, 0⟩
  else
    let (s, d, errs, calls) :=
      mut_go write cont (chunk_idx B total 0 record_ids) true 0 [] 0
    ⟨s, mdl, d, total, if errs.length > 10 then errs.take 10 else errs, elapsed, calls⟩

/-- Result record of `batch_create` (`errors` keeps the failing `values`
dictionaries, modelled by the record value of type `ρ`). -/
structure CreateResult (ρ : Type) where
  success : Bool
  model : String
  created_ids : List Nat
  total_created : Nat
  total_failed : Nat
  errors : List ρ
  elapsed : Nat
deriving DecidableEq

/-- The inner per-record loop of one batch of `BatchProcessor.batch_create`:
each record is created individually (`create v = none` models a raised
exception). Returns the ids created in this batch, the accumulated errors,
and whether the early `return` (on error with `continue_on_error = false`)
was taken. -/
def bc_batch {ρ : Type} (create : ρ → Option Nat) (cont : Bool) :
    List ρ → List Nat → List ρ → List Nat × List ρ × Bool
  | [], bids, errs => (bids, errs, false)
  | v :: rest, bids, errs =>
    match create v with
    | some rid => bc_batch create cont rest (bids ++ [rid]) errs
    | none =>
      if cont then bc_batch create cont rest bids (errs ++ [v])
      else (bids, errs ++ [v], true)

/-- The outer chunk loop of `BatchProcessor.batch_create`. On the early
return path the ids of the current batch (`bids`) are NOT merged into
`all_ids`, exactly as in the source, where the `return` fires before
`all_ids.extend(batch_ids)`. -/
def bc_go {ρ : Type} (create : ρ → Option Nat) (cont : Bool) :
    List (List ρ) → List Nat → List ρ → List Nat × List ρ × Bool
  | [], all, errs => (all, errs, false)
  | batch :: rest, all, errs =>
    let (bids, errs2, stop) := bc_batch create cont batch [] errs
    if stop then (all, errs2, true)
    else bc_go create cont rest (all ++ bids) errs2

/-- Model of `BatchProcessor.batch_create`. On the early-return path
(`continue_on_error = false` and an error occurred) the error list is
returned uncapped; on the completion path it is capped at 10 entries and
`success` is `len(errors) == 0`. -/
def batch_create {ρ : Type} (create : ρ → Option Nat) (mdl : String)
    (records : List ρ) (B : Nat) (cont : Bool) (elapsed : Nat) : CreateResult ρ :=
  let out := bc_go create cont (chunk_list B records.length records) [] []
  match out with
  | (all, errs, stop) =>
    if stop then ⟨false, mdl, all, all.length, errs.length, errs, elapsed⟩
    else
      ⟨errs.isEmpty, mdl, all, all.length, errs.length,
       if errs.length > 10 then errs.take 10 else errs, elapsed⟩

end BatchProcessor

/-! ## Theorems about the claims -/

/-- C1 (counterexample): a single-item list whose item makes `process_func`
raise is processed inline (`len(items) <= 3`), the exception propagates and
the whole `parallel_process` call raises (`none`) instead of returning the
one-element list `[None]` that the claim requires. -/
theorem parallel_process_small_raises :
    BatchProcessor.parallel_process (fun _ : Nat => (none : Option Nat)) [1] = none ∧
    (none : Option (List (Option Nat))) ≠ some [none] := by
  exact ⟨rfl, by decide⟩

/-- C1 (amended): for input lists of more than 3 items, `parallel_process`
returns the in-order list of per-item outcomes: the result is exactly
`items.map f` (so its length equals the input length, entry `i` is the
function's value on `items[i]`, and a raising item is recorded as `none` at
its position without affecting the others). Lists of 3 or fewer items are
processed inline without per-item catching, so there a raising item makes
the whole call raise. -/
theorem parallel_process_large_spec {α β : Type} (f : α → Option β) (items : List α)
    (h : 3 < items.length) :
    BatchProcessor.parallel_process f items = some (items.map f) ∧
    (items.map f).length = items.length := by
  refine ⟨?_, by simp⟩
  simp [BatchProcessor.parallel_process, Nat.not_le.mpr h]

/-- C1 (witness): instantiation of `parallel_process_large_spec` on the
four-element list `[1, 2, 3, 4]` with a function that fails exactly on `2`. -/
theorem parallel_process_large_spec_witness :
    BatchProcessor.parallel_process (fun n : Nat => if n = 2 then none else some n) [1, 2, 3, 4] =
      some ([1, 2, 3, 4].map fun n : Nat => if n = 2 then none else some n) ∧
    ([1, 2, 3, 4].map fun n : Nat => if n = 2 then none else some n).length =
      ([1, 2, 3, 4] : List Nat).length :=
  parallel_process_large_spec _ _ (by decide)

/-- C2 (confirmed): for a cacheable method with caching enabled and a cache
entry of timestamp `ts` present for the key, `_execute` returns the cached
value without a remote call exactly when `now - ts < TTL` (strictly); when
`now - ts >= TTL` the cached value is not used, the remote call is issued,
and its result (never the stale entry) is returned and re-cached. -/
theorem execute_ttl_spec {α : Type} (ttl now ts : Int) (key : OdooClient.CKey) (v : α)
    (remote : Option α) (st : OdooClient.CState α)
    (hm : OdooClient.cacheable key.method = true)
    (hv : alget st.cache key = some v)
    (hts : alget st.stamps key = some ts) :
    OdooClient.execute true ttl now key remote st =
      (if now - ts < ttl then some (v, st, false)
       else remote.map fun r => (r, ⟨alset st.cache key r, alset st.stamps key now⟩, true)) := by
  simp only [OdooClient.execute, hm, Bool.and_self, if_true, hv, hts]
  split
  · rfl
  · cases remote <;> simp [hm]

/-- C2 (witness): a concrete client state with one cached `search` entry;
`execute_ttl_spec` is applied with `TTL = 300`, insertion time `10` and
call time `12`, a fresh hit. -/
theorem execute_ttl_spec_witness :
    OdooClient.execute true 300 12 ⟨"res.partner", "search", "args", "kwargs"⟩ (some 99)
      (⟨[(⟨"res.partner", "search", "args", "kwargs"⟩, 42)],
        [(⟨"res.partner", "search", "args", "kwargs"⟩, 10)]⟩ : OdooClient.CState Nat) =
      (if (12 : Int) - 10 < 300 then
        some (42, ⟨[(⟨"res.partner", "search", "args", "kwargs"⟩, 42)],
          [(⟨"res.partner", "search", "args", "kwargs"⟩, 10)]⟩, false)
       else (some 99).map fun r =>
        (r, ⟨alset [(⟨"res.partner", "search", "args", "kwargs"⟩, 42)]
               ⟨"res.partner", "search", "args", "kwargs"⟩ r,
             alset [(⟨"res.partner", "search", "args", "kwargs"⟩, 10)]
               ⟨"res.partner", "search", "args", "kwargs"⟩ 12⟩, true)) :=
  execute_ttl_spec 300 12 10 _ 42 (some 99) _ (by decide) (by decide) (by decide)

/-- C3 (counterexample): an endpoint `"a"` with an existing but expired
Connection (timestamp `0`, probe failing, `now = 10000`, validity `3600`)
whose single reconnect attempt fails: `get_client` returns `none`, yet the
stale client `5` is still registered in the connection map afterwards — it
is not purged, contrary to the claim. -/
theorem get_client_stale_not_purged :
    (InstanceManager.get_client 10000 3600 (fun _ : Nat => false)
        ⟨["a"], [("a", 5)], [("a", 0)], "a"⟩ (some "a") [none]).1 = none ∧
    alget (InstanceManager.get_client 10000 3600 (fun _ : Nat => false)
        ⟨["a"], [("a", 5)], [("a", 0)], "a"⟩ (some "a") [none]).2.1.connections "a" = some 5 := by
  exact ⟨rfl, by decide⟩

/-- Upserting a key and then looking it up yields the inserted value
(Python `d[k] = v` followed by `d.get(k)`). -/
theorem alget_alset {κ α : Type} [DecidableEq κ] (l : List (κ × α)) (k : κ) (v : α) :
    alget (alset l k v) k = some v := by
  induction l with
  | nil => simp [alget, alset]
  | cons p rest ih =>
    by_cases h : p.1 = k
    · simp [alset, alget, h]
    · simp [alset, alget, h, ih]

/-- C3 (amended): for an endpoint with an existing Connection, `get_client`
revalidates it before returning: a successful revalidation returns the
stored client with no reconnect attempt; a failed revalidation triggers
exactly one reconnect attempt — if that attempt fails, `get_client`
returns `none` and leaves the registry state unchanged, so the stale
Connection remains registered (it is not purged); if the reconnect
succeeds, the replacement client overwrites the stale entry and is
returned. -/
theorem get_client_revalidation_spec {C : Type} (now validity : Int) (probe : C → Bool)
    (st : InstanceManager.RState C) (name : String) (c c2 : C) (rs : List (Option C))
    (h1 : alget st.connections name = some c) :
    (InstanceManager.validate_connection st name now validity probe = true →
      InstanceManager.get_client now validity probe st (some name) rs = (some c, st, rs, 0)) ∧
    (InstanceManager.validate_connection st name now validity probe = false →
      rs.headD none = none →
      InstanceManager.get_client now validity probe st (some name) rs = (none, st, rs.tail, 1)) ∧
    (InstanceManager.validate_connection st name now validity probe = false →
      rs.headD none = some c2 →
      InstanceManager.get_client now validity probe st (some name) rs =
        (some c2,
         ⟨st.names, alset st.connections name c2, alset st.stamps name now, st.active⟩,
         rs.tail, 1)) := by
  refine ⟨?_, ?_, ?_⟩
  · intro hval
    simp [InstanceManager.get_client, h1, InstanceManager.get_client_validated, hval]
  · intro hval hhead
    have hh : rs.head?.getD none = none := by simpa using hhead
    simp [InstanceManager.get_client, h1, InstanceManager.get_client_validated, hval, hh,
      InstanceManager.connect_instance]
  · intro hval hhead
    have hh : rs.head?.getD none = some c2 := by simpa using hhead
    simp [InstanceManager.get_client, h1, InstanceManager.get_client_validated, hval, hh,
      InstanceManager.connect_instance, alget_alset]

/-- C3 (witness): `get_client_revalidation_spec` applied to the concrete
stale registry of `get_client_stale_not_purged`, failed-revalidation
branch. -/
theorem get_client_revalidation_spec_witness :
    InstanceManager.get_client 10000 3600 (fun _ : Nat => false)
      ⟨["a"], [("a", 5)], [("a", 0)], "a"⟩ (some "a") [none] =
      (none, ⟨["a"], [("a", 5)], [("a", 0)], "a"⟩, [], 1) :=
  (get_client_revalidation_spec 10000 3600 (fun _ : Nat => false)
      ⟨["a"], [("a", 5)], [("a", 0)], "a"⟩ "a" 5 5 [none] (by decide)).2.1 (by decide) rfl

/-- C4 (counterexample): with prior active endpoint `"a"` and a healthy
endpoint `"b"`, the scoped operation `instance_context "b"` runs the
caller's body while the registry's active pointer equals `"b"`: the scoped
acquisition goes through `switch_instance`, which mutates the active
pointer, contrary to the claim that it is never mutated during the scoped
operation. -/
theorem instance_context_mutates_active_during_scope :
    (InstanceManager.instance_context 100 3600 (fun _ : Nat => true)
        ⟨["a", "b"], [("b", 7)], [("b", 90)], "a"⟩ "b" [] (fun c => some c)).2.2 = some "b" ∧
    ("b" : String) ≠ "a" := by
  exact ⟨rfl, by decide⟩

/-- C4 (amended): the scoped-endpoint operation acquires its client through
`switch_instance` and therefore sets the registry's active pointer to the
target endpoint while the caller's operation runs, but the prior active
endpoint is restored after exit on every path — normal return, acquisition
failure, or an exception raised by the caller's operation (`body` returning
`none`). -/
theorem instance_context_restores_active {C β : Type} (now validity : Int) (probe : C → Bool)
    (st : InstanceManager.RState C) (name : String) (rs : List (Option C))
    (body : C → Option β) :
    (InstanceManager.instance_context now validity probe st name rs body).2.1.active =
      st.active := rfl

/-- C5 (counterexample): when the domain is well-formed (here absent, so
normalized to `[]`) and the combined `search_read` remote call succeeds and
returns no records, the client returns the empty list directly and the
fallback `search` is never executed — contradicting the claim that an
empty result is returned only after the fallback search yielded no ids. -/
theorem search_read_empty_without_fallback :
    OdooClient.search_read none (some ([] : List Nat)) none none = ([], true, false) := rfl

/-- C5 (amended): a domain failing the client-side validation raises
`ValueError`, which the outer handler turns into an empty result with no
remote call at all (neither the combined call nor the fallback is issued);
for a valid domain the fallback `search` + `read` pair is executed exactly
when the combined `search_read` call raises. An empty list is returned only
if the domain failed validation, or the combined call itself succeeded with
an empty result, or (in the fallback) the search raised or yielded no ids,
or the read raised or yielded no records. -/
theorem search_read_fallback_spec {ρ : Type} (domain : Option (List OdooClient.DomainItem))
    (direct : Option (List ρ)) (searchRes : Option (List Nat)) (readRes : Option (List ρ)) :
    ((OdooClient.search_read domain direct searchRes readRes).2.1 =
      OdooClient.domain_valid (domain.getD [])) ∧
    ((OdooClient.search_read domain direct searchRes readRes).2.2 = true ↔
      OdooClient.domain_valid (domain.getD []) = true ∧ direct = none) ∧
    ((OdooClient.search_read domain direct searchRes readRes).1 = [] →
      OdooClient.domain_valid (domain.getD []) = false ∨ direct = some [] ∨ (direct = none ∧
        (searchRes = none ∨ searchRes = some [] ∨ readRes = none ∨ readRes = some []))) := by
  rcases hdv : OdooClient.domain_valid (domain.getD []) with _ | _
  · simp [OdooClient.search_read, hdv]
  · rcases direct with _ | rs
    · rcases searchRes with _ | (_ | ⟨i, ids⟩)
      · simp [OdooClient.search_read, hdv]
      · simp [OdooClient.search_read, hdv]
      · rcases readRes with _ | recs
        · simp [OdooClient.search_read, hdv]
        · rcases recs with _ | ⟨r, recs⟩ <;> simp [OdooClient.search_read, hdv]
    · rcases rs with _ | ⟨r, rs⟩ <;> simp [OdooClient.search_read, hdv]

/-- C5 (witness): `search_read_fallback_spec` applied to a run with a valid
(absent) domain where the combined call succeeds with an empty result; the
inner hypothesis of the empty-result implication is discharged there. -/
theorem search_read_fallback_spec_witness :
    OdooClient.domain_valid ((none : Option (List OdooClient.DomainItem)).getD []) = false ∨
    (some ([] : List Nat)) = some [] ∨ ((some ([] : List Nat)) = none ∧
      ((none : Option (List Nat)) = none ∨ (none : Option (List Nat)) = some [] ∨
        (none : Option (List Nat)) = none ∨ (none : Option (List Nat)) = some [])) :=
  (search_read_fallback_spec none (some ([] : List Nat)) none none).2.2 rfl

/-- Every offset visited by the pagination loop of `batch_search_read` is
strictly below the counted total, for a positive chunk size. -/
theorem mem_bsr_chunks_lt {N B o : Nat} (hB : 0 < B)
    (ho : o ∈ BatchProcessor.bsr_chunks N B) : o < N := by
  obtain ⟨i, hi, rfl⟩ := List.mem_range'.mp ho
  have h1 : (i + 1) * B ≤ (N + B - 1) / B * B :=
    Nat.mul_le_mul_right _ (Nat.succ_le_of_lt hi)
  have h2 : (N + B - 1) / B * B ≤ N + B - 1 := Nat.div_mul_le_self _ _
  have h4 : B * i + B ≤ N + B - 1 := by
    calc B * i + B = (i + 1) * B := by ring
    _ ≤ (N + B - 1) / B * B := h1
    _ ≤ N + B - 1 := h2
  generalize B * i = x at h4 ⊢
  omega

/-- When every requested chunk comes back full (and hence nonempty) and no
record cap is set, the pagination loop performs one fetch per visited
offset. -/
theorem bsr_go_full_count {ρ : Type} (fetch : Nat → Nat → List ρ) (N B : Nat) :
    ∀ (k s : Nat) (acc : List ρ) (p f : Nat),
      (∀ o ∈ List.range' s k B,
        (fetch o (min B (N - o))).length = min B (N - o) ∧ 0 < min B (N - o)) →
      (BatchProcessor.bsr_go fetch N B none (List.range' s k B) acc p f).2 = f + k := by
  intro k
  induction k with
  | zero =>
    intro s acc p f _
    simp [BatchProcessor.bsr_go, List.range']
  | succ k ih =>
    intro s acc p f h
    have hs : (fetch s (min B (N - s))).length = min B (N - s) ∧ 0 < min B (N - s) := by
      apply h
      rw [List.range'_succ]
      exact List.mem_cons_self _ _
    have hne : (fetch s (min B (N - s))).isEmpty = false := by
      rw [List.isEmpty_eq_false]
      intro hnil
      rw [hnil] at hs
      simp only [List.length_nil] at hs
      omega
    have hrest : ∀ o ∈ List.range' (s + B) k B,
        (fetch o (min B (N - o))).length = min B (N - o) ∧ 0 < min B (N - o) := by
      intro o ho
      apply h
      rw [List.range'_succ]
      exact List.mem_cons_of_mem _ ho
    rw [List.range'_succ]
    simp only [BatchProcessor.bsr_go, hne, Bool.false_eq_true, if_false]
    rw [ih (s + B) _ _ _ hrest]
    omega

/-- C6 (amended): when the counted total is `N`, the chunk size `B` is
positive, no record cap is set and every requested chunk comes back full,
`batch_search_read` performs exactly `ceil(N / B) = (N + B - 1) / B` chunk
fetches; and in the concrete scenario of 250 matching records with chunk
size 100 against a consistent server it issues exactly 3 chunk fetches
(of 100, 100 and 50 records) and returns all 250 records. Pagination ends
early only when a chunk comes back empty; a chunk that is short but
nonempty does not end it (see the counterexample). -/
theorem batch_search_read_spec :
    (∀ (fetch : Nat → Nat → List Nat) (N B : Nat), 0 < B →
        (∀ o ∈ BatchProcessor.bsr_chunks N B,
          (fetch o (min B (N - o))).length = min B (N - o)) →
        (BatchProcessor.batch_search_read fetch N none B).2 = (N + B - 1) / B) ∧
    BatchProcessor.batch_search_read (fun o l => ((List.range 250).drop o).take l)
      250 none 100 = (List.range 250, 3) := by
  constructor
  · intro fetch N B hB hfull
    have h : ∀ o ∈ List.range' 0 ((N + B - 1) / B) B,
        (fetch o (min B (N - o))).length = min B (N - o) ∧ 0 < min B (N - o) := by
      intro o ho
      have hlt : o < N := mem_bsr_chunks_lt hB ho
      exact ⟨hfull o ho, lt_min hB (by omega)⟩
    have hcount := bsr_go_full_count fetch N B ((N + B - 1) / B) 0 [] 0 0 h
    simpa [BatchProcessor.batch_search_read, BatchProcessor.bsr_chunks] using hcount
  · decide

/-- C6 (witness): `batch_search_read_spec` applied to a consistent
7-record server with chunk size 3: exactly `ceil(7 / 3) = 3` chunk fetches
are issued. -/
theorem batch_search_read_spec_witness :
    (BatchProcessor.batch_search_read (fun o l => ((List.range 7).drop o).take l)
      7 none 3).2 = (7 + 3 - 1) / 3 :=
  batch_search_read_spec.1 (fun o l => ((List.range 7).drop o).take l) 7 3
    (by decide) (by decide)

/-- C6 (counterexample): with 250 counted records and chunk size 100, a
server whose first chunk comes back with a single record — fewer than 100,
well before the counted total — does not end pagination early: the loop
still issues all 3 chunk fetches, because the source breaks only on an
empty chunk, never on a short one. -/
theorem batch_search_read_short_chunk_continues :
    ((fun o _ => if o = 0 then [42] else if o = 100 then [7] else [8]) 0 100 : List Nat).length
        < 100 ∧
    (BatchProcessor.batch_search_read
      (fun o _ => if o = 0 then [42] else if o = 100 then [7] else [8]) 250 none 100).2 = 3 := by
  decide

/-- C7 (confirmed): chunked delete of the 10 ids `[1..10]` with chunk size
4 and `continue_on_error = false`, where the first chunk's remote `unlink`
succeeds and the second chunk's remote call raises: the result has
`deleted_count = 4`, `success = false` and exactly one error entry
`(batch_start 4, batch_size 4)`, and only 2 remote calls were made — the
third chunk is never attempted. -/
theorem batch_delete_scenario :
    BatchProcessor.batch_delete (fun ids => if ids = [1, 2, 3, 4] then some true else none)
      "res.partner" [1, 2, 3, 4, 5, 6, 7, 8, 9, 10] 4 false 9 =
      ⟨false, "res.partner", 4, 10, [(4, 4)], 9, 2⟩ := by decide

/-- C8 (code bug): `batch_create` of two records with
`continue_on_error = false` where the first create succeeds (id 11) and the
second raises: the early return fires before `all_ids.extend(batch_ids)`,
so the result reports `total_created = 0` and `created_ids = []` although
one individual create call succeeded — the returned count is not the exact
number of successful creates required by the claim. -/
theorem batch_create_partial_batch_lost :
    (fun n : Nat => if n = 0 then some 11 else none) 0 = some 11 ∧
    BatchProcessor.batch_create (fun n : Nat => if n = 0 then some 11 else none)
      "res.partner" [0, 1] 100 false 0 =
      ⟨false, "res.partner", [], 0, 1, [1], 0⟩ := by decide

/-- C9 (confirmed): `batch_update` and `batch_delete` invoked with an empty
id list return immediately with `success = true`, a zero
updated/deleted count, elapsed time 0 and zero remote calls, for every
model name, batch size, continue-on-error flag and remote-call behavior. -/
theorem batch_empty_ids_spec (unlink write : List Nat → Option Bool) (mdl : String)
    (B : Nat) (cont : Bool) (elapsed : Nat) :
    BatchProcessor.batch_delete unlink mdl [] B cont elapsed = ⟨true, mdl, 0, 0, [], 0, 0⟩ ∧
    BatchProcessor.batch_update write mdl [] B cont elapsed = ⟨true, mdl, 0, 0, [], 0, 0⟩ :=
  ⟨rfl, rfl⟩

/-- C10 (confirmed): with caching enabled, `clear_cache` called with a
method argument but no model argument takes the final `else` branch and
clears the entire cache and timestamp map — afterwards no cached entry
remains for any model or method. -/
theorem clear_cache_method_only_clears_all {α : Type} (st : OdooClient.CState α)
    (meth : String) :
    OdooClient.clear_cache true st none (some meth) = ⟨[], []⟩ := rfl
